import Mathlib

/-!
Shallow embedding of stefgina/crpr (src/crpr.py), a video ROI crop tool:
a selection state machine (rectangle creation / move / resize with handle
hit-testing and square mode) and a streaming crop pipeline.

Pixel coordinates are modelled as Int (Python ints), frames as lists of
rows of pixels.  Python floor division by 2 is written with Int `/`
(Euclidean division), which agrees with floor division for the positive
divisor 2.  Python abs on ints is Int.natAbs.
-/

namespace Crpr

/-- Drag modes of the selection state machine (class DragMode, crpr.py 13-17). -/
inductive DragMode where
  | none
  | creating
  | moving
  | resizing
  deriving DecidableEq, Repr

/-- The eight resize handles, the keys of the handles dict built in
get_handle_at_position (crpr.py 164-173), in dict insertion order. -/
inductive Handle where
  | topLeft
  | topRight
  | bottomLeft
  | bottomRight
  | top
  | bottom
  | left
  | right
  deriving DecidableEq, Repr

/-- Result of the Python substring test `'left' in handle` on the handle name. -/
def Handle.hasLeft : Handle → Bool
  | .topLeft => true
  | .bottomLeft => true
  | .left => true
  | _ => false

/-- Result of the Python substring test `'right' in handle` on the handle name. -/
def Handle.hasRight : Handle → Bool
  | .topRight => true
  | .bottomRight => true
  | .right => true
  | _ => false

/-- Result of the Python substring test `'top' in handle` on the handle name. -/
def Handle.hasTop : Handle → Bool
  | .topLeft => true
  | .topRight => true
  | .top => true
  | _ => false

/-- Result of the Python substring test `'bottom' in handle` on the handle name. -/
def Handle.hasBottom : Handle → Bool
  | .bottomLeft => true
  | .bottomRight => true
  | .bottom => true
  | _ => false

/-- Result of the Python substring test `'-' in handle`: true exactly for the
four corner handles (crpr.py 220). -/
def Handle.isCorner : Handle → Bool
  | .topLeft => true
  | .topRight => true
  | .bottomLeft => true
  | .bottomRight => true
  | _ => false

/-- HANDLE_SENSITIVITY = 10 (crpr.py 37). -/
def HANDLE_SENSITIVITY : Nat := 10

/-- The four rectangle coordinates of CropState (start_x, start_y, end_x, end_y)
in the all-set configuration.  mouse_callback always sets or reads the four
together, so a set selection is modelled as one record. -/
structure Rect where
  start_x : Int
  start_y : Int
  end_x : Int
  end_y : Int
  deriving DecidableEq, Repr

/-- Normalized width: x2 - x1 after `x1, x2 = sorted([start_x, end_x])`. -/
def Rect.width (r : Rect) : Int :=
  max r.start_x r.end_x - min r.start_x r.end_x

/-- Normalized height: y2 - y1 after `y1, y2 = sorted([start_y, end_y])`. -/
def Rect.height (r : Rect) : Int :=
  max r.start_y r.end_y - min r.start_y r.end_y

/-- Center of a handle, as computed from the normalized coordinates in the
handles dict of get_handle_at_position (crpr.py 164-173).  Midpoints use
Python floor division by 2, which is Int `/` here. -/
def Rect.handleCenterOf (r : Rect) : Handle → Int × Int
  | Handle.topLeft =>
      (min r.start_x r.end_x, min r.start_y r.end_y)
  | Handle.topRight =>
      (max r.start_x r.end_x, min r.start_y r.end_y)
  | Handle.bottomLeft =>
      (min r.start_x r.end_x, max r.start_y r.end_y)
  | Handle.bottomRight =>
      (max r.start_x r.end_x, max r.start_y r.end_y)
  | Handle.top =>
      ((min r.start_x r.end_x + max r.start_x r.end_x) / 2, min r.start_y r.end_y)
  | Handle.bottom =>
      ((min r.start_x r.end_x + max r.start_x r.end_x) / 2, max r.start_y r.end_y)
  | Handle.left =>
      (min r.start_x r.end_x, (min r.start_y r.end_y + max r.start_y r.end_y) / 2)
  | Handle.right =>
      (max r.start_x r.end_x, (min r.start_y r.end_y + max r.start_y r.end_y) / 2)

/-- The per-handle test of the loop body at crpr.py 176:
`abs(x - hx) <= HANDLE_SENSITIVITY and abs(y - hy) <= HANDLE_SENSITIVITY`. -/
def hitTest (x y cx cy : Int) : Bool :=
  decide ((x - cx).natAbs ≤ HANDLE_SENSITIVITY) && decide ((y - cy).natAbs ≤ HANDLE_SENSITIVITY)

/-- get_handle_at_position (crpr.py 156-178) on a set selection: the loop over
the insertion-ordered handles dict, unrolled; the first handle whose center
passes hitTest is returned. -/
def get_handle_at_position (r : Rect) (x y : Int) : Option Handle :=
  if hitTest x y (r.handleCenterOf Handle.topLeft).1 (r.handleCenterOf Handle.topLeft).2 then
    Option.some Handle.topLeft
  else if hitTest x y (r.handleCenterOf Handle.topRight).1 (r.handleCenterOf Handle.topRight).2 then
    Option.some Handle.topRight
  else if hitTest x y (r.handleCenterOf Handle.bottomLeft).1 (r.handleCenterOf Handle.bottomLeft).2 then
    Option.some Handle.bottomLeft
  else if hitTest x y (r.handleCenterOf Handle.bottomRight).1 (r.handleCenterOf Handle.bottomRight).2 then
    Option.some Handle.bottomRight
  else if hitTest x y (r.handleCenterOf Handle.top).1 (r.handleCenterOf Handle.top).2 then
    Option.some Handle.top
  else if hitTest x y (r.handleCenterOf Handle.bottom).1 (r.handleCenterOf Handle.bottom).2 then
    Option.some Handle.bottom
  else if hitTest x y (r.handleCenterOf Handle.left).1 (r.handleCenterOf Handle.left).2 then
    Option.some Handle.left
  else if hitTest x y (r.handleCenterOf Handle.right).1 (r.handleCenterOf Handle.right).2 then
    Option.some Handle.right
  else
    Option.none

/-- point_in_selection (crpr.py 180-189) on a set selection: false on any
handle, else the strict interior test. -/
def point_in_selection (r : Rect) (x y : Int) : Bool :=
  if (get_handle_at_position r x y).isSome then
    false
  else
    decide (min r.start_x r.end_x < x) && decide (x < max r.start_x r.end_x) &&
    decide (min r.start_y r.end_y < y) && decide (y < max r.start_y r.end_y)

/-- make_square (crpr.py 191-199).  Note dx > 0 (strict): a zero displacement
takes the negative branch. -/
def make_square (start_x start_y current_x current_y : Int) : Int × Int :=
  let dx := current_x - start_x
  let dy := current_y - start_y
  let abs_dx := dx.natAbs
  let abs_dy := dy.natAbs
  let max_delta : Int := (max abs_dx abs_dy : Nat)
  let new_dx := if dx > 0 then max_delta else -max_delta
  let new_dy := if dy > 0 then max_delta else -max_delta
  (start_x + new_dx, start_y + new_dy)

/-- handle_resize (crpr.py 201-238) for a set selection and active handle.
The pointer is clamped to the frame, the edges controlled by the handle are
moved, and with square mode on a corner handle the square branch recomputes
the two coordinates adjacent to the handle from max(width, height). -/
def handle_resize (r : Rect) (handle : Handle) (frame_width frame_height : Int)
    (x y : Int) (maintain_square : Bool) : Rect :=
  let x := max 0 (min x frame_width)
  let y := max 0 (min y frame_height)
  let r1 :=
    if handle.hasLeft then { r with start_x := x }
    else if handle.hasRight then { r with end_x := x }
    else r
  let r2 :=
    if handle.hasTop then { r1 with start_y := y }
    else if handle.hasBottom then { r1 with end_y := y }
    else r1
  if maintain_square && handle.isCorner then
    let x1 := min r2.start_x r2.end_x
    let x2 := max r2.start_x r2.end_x
    let y1 := min r2.start_y r2.end_y
    let y2 := max r2.start_y r2.end_y
    let width := x2 - x1
    let height := y2 - y1
    let max_size := max width height
    match handle with
    | Handle.topLeft =>
        { r2 with start_x := r2.end_x - max_size, start_y := r2.end_y - max_size }
    | Handle.topRight =>
        { r2 with end_x := r2.start_x + max_size, start_y := r2.end_y - max_size }
    | Handle.bottomLeft =>
        { r2 with start_x := r2.end_x - max_size, end_y := r2.start_y + max_size }
    | Handle.bottomRight =>
        { r2 with end_x := r2.start_x + max_size, end_y := r2.start_y + max_size }
    | _ => r2
  else
    r2

/-- move_selection (crpr.py 240-268) for a set selection: returns the moved
rectangle together with the updated move anchor (move_start_x, move_start_y). -/
def move_selection (r : Rect) (move_start_x move_start_y : Int)
    (frame_width frame_height : Int) (x y : Int) : Rect × Int × Int :=
  let dx := x - move_start_x
  let dy := y - move_start_y
  let x1 := min r.start_x r.end_x
  let x2 := max r.start_x r.end_x
  let y1 := min r.start_y r.end_y
  let y2 := max r.start_y r.end_y
  let width := x2 - x1
  let height := y2 - y1
  let a := x1 + dx
  let b := y1 + dy
  let a := if a < 0 then 0 else a
  let b := if b < 0 then 0 else b
  let a := if a + width > frame_width then frame_width - width else a
  let b := if b + height > frame_height then frame_height - height else b
  ({ start_x := a, start_y := b, end_x := a + width, end_y := b + height }, x, y)

/-- The four optional CropState coordinates (crpr.py 21-24), as read by the
validation functions. -/
structure CoordState where
  start_x : Option Int
  start_y : Option Int
  end_x : Option Int
  end_y : Option Int
  deriving DecidableEq, Repr

/-- has_valid_selection (crpr.py 352-358): all four coordinates are set. -/
def has_valid_selection (s : CoordState) : Bool :=
  s.start_x.isSome && s.start_y.isSome && s.end_x.isSome && s.end_y.isSome

/-- check_minimum_size (crpr.py 431-436): false when not all coordinates are
set, else both normalized dimensions are at least min_size (default 10). -/
def check_minimum_size (s : CoordState) (min_size : Int) : Bool :=
  match s.start_x, s.start_y, s.end_x, s.end_y with
  | Option.some sx, Option.some sy, Option.some ex, Option.some ey =>
      decide (max sx ex - min sx ex ≥ min_size) && decide (max sy ey - min sy ey ≥ min_size)
  | _, _, _, _ => false

/-- validate_selection (crpr.py 422-429): rejects (with a reported error)
when no valid selection exists or the selection is below the minimum size. -/
def validate_selection (s : CoordState) : Bool :=
  if !has_valid_selection s then false
  else if !check_minimum_size s 10 then false
  else true

/-- Models the c-key branch of show_frame_for_cropping (crpr.py 400-404):
process_video, which runs the crop pipeline, is invoked exactly when
validate_selection returns true. -/
def confirm_invokes_pipeline (s : CoordState) : Bool :=
  validate_selection s

/-- The CropState fields driven by mouse_callback.  The four coordinates are
always written and read together by the callback, so the set selection is one
optional Rect; square_mode is the persistent checkbox toggle read by
check_shift_key. -/
structure SMState where
  rect : Option Rect
  drag_mode : DragMode
  move_start_x : Int
  move_start_y : Int
  frame_width : Int
  frame_height : Int
  resize_handle : Option Handle
  square_mode : Bool
  deriving DecidableEq, Repr

/-- check_shift_key (crpr.py 347-350): the cv2 shift flag ORed with the
persistent square-mode toggle. -/
def check_shift_key (s : SMState) (cv2_shift : Bool) : Bool :=
  cv2_shift || s.square_mode

/-- The three pointer events dispatched to mouse_callback; mousemove carries
the cv2 shift flag extracted from the event flags. -/
inductive MouseEvent where
  | lbuttondown (x y : Int)
  | mousemove (x y : Int) (cv2_shift : Bool)
  | lbuttonup
  deriving DecidableEq, Repr

/-- mouse_callback (crpr.py 305-345): pointer-down enters RESIZING on a
handle hit, MOVING strictly inside an existing selection, else CREATING with
both corners at the pointer; pointer-move dispatches on the drag mode
(make_square or direct end point for CREATING, move_selection for MOVING,
handle_resize for RESIZING); pointer-up clears mode and handle. -/
def mouse_callback (s : SMState) : MouseEvent → SMState
  | MouseEvent.lbuttondown x y =>
      match s.rect with
      | Option.some r =>
          match get_handle_at_position r x y with
          | Option.some h =>
              { s with drag_mode := DragMode.resizing, resize_handle := Option.some h }
          | Option.none =>
              if point_in_selection r x y then
                { s with drag_mode := DragMode.moving, move_start_x := x, move_start_y := y }
              else
                { s with drag_mode := DragMode.creating,
                         rect := Option.some ⟨x, y, x, y⟩ }
      | Option.none =>
          { s with drag_mode := DragMode.creating,
                   rect := Option.some ⟨x, y, x, y⟩ }
  | MouseEvent.mousemove x y cv2_shift =>
      match s.drag_mode with
      | DragMode.none => s
      | DragMode.creating =>
          match s.rect with
          | Option.some r =>
              if check_shift_key s cv2_shift then
                let p := make_square r.start_x r.start_y x y
                { s with rect := Option.some { r with end_x := p.1, end_y := p.2 } }
              else
                { s with rect := Option.some { r with end_x := x, end_y := y } }
          | Option.none => s
      | DragMode.moving =>
          match s.rect with
          | Option.some r =>
              let m := move_selection r s.move_start_x s.move_start_y
                s.frame_width s.frame_height x y
              { s with rect := Option.some m.1, move_start_x := m.2.1, move_start_y := m.2.2 }
          | Option.none => s
      | DragMode.resizing =>
          match s.resize_handle, s.rect with
          | Option.some h, Option.some r =>
              let r2 := handle_resize r h s.frame_width s.frame_height x y
                (check_shift_key s cv2_shift)
              { s with rect := Option.some r2 }
          | _, _ => s
  | MouseEvent.lbuttonup =>
      { s with drag_mode := DragMode.none, resize_handle := Option.none }

/-- A rectangle lies within the frame: both x coordinates in [0, frame_width]
and both y coordinates in [0, frame_height]. -/
def Rect.in_bounds (r : Rect) (fw fh : Int) : Bool :=
  decide (0 ≤ r.start_x) && decide (r.start_x ≤ fw) &&
  decide (0 ≤ r.end_x) && decide (r.end_x ≤ fw) &&
  decide (0 ≤ r.start_y) && decide (r.start_y ≤ fh) &&
  decide (0 ≤ r.end_y) && decide (r.end_y ≤ fh)

/-- The selection of a state, when set, lies within the state's frame. -/
def SMState.rect_in_bounds (s : SMState) : Bool :=
  match s.rect with
  | Option.some r => r.in_bounds s.frame_width s.frame_height
  | Option.none => true

/-- The pointer coordinates carried by an event lie within the frame. -/
def MouseEvent.in_bounds (fw fh : Int) : MouseEvent → Bool
  | MouseEvent.lbuttondown x y =>
      decide (0 ≤ x) && decide (x ≤ fw) && decide (0 ≤ y) && decide (y ≤ fh)
  | MouseEvent.mousemove x y _ =>
      decide (0 ≤ x) && decide (x ≤ fw) && decide (0 ≤ y) && decide (y ≤ fh)
  | MouseEvent.lbuttonup => true

/-- The event is a pointer-move handled in CREATING mode with the effective
square modifier active. -/
def isSquareCreatingMove (s : SMState) : MouseEvent → Bool
  | MouseEvent.mousemove _ _ cv2_shift =>
      decide (s.drag_mode = DragMode.creating) && check_shift_key s cv2_shift
  | _ => false

/-- The event is a pointer-move handled in RESIZING mode on a corner handle
with the effective square modifier active. -/
def isSquareCornerResizeMove (s : SMState) : MouseEvent → Bool
  | MouseEvent.mousemove _ _ cv2_shift =>
      decide (s.drag_mode = DragMode.resizing) && check_shift_key s cv2_shift &&
      (match s.resize_handle with
       | Option.some h => h.isCorner
       | Option.none => false)
  | _ => false

/-- The corner of the rectangle opposite a corner handle, as a pair of
coordinate fields: for a normalized rectangle (start ≤ end on both axes) the
top-left handle sits at (start_x, start_y) and its opposite corner is
(end_x, end_y), and so on. -/
def Rect.oppositeCorner (r : Rect) : Handle → Int × Int
  | Handle.topLeft => (r.end_x, r.end_y)
  | Handle.topRight => (r.start_x, r.end_y)
  | Handle.bottomLeft => (r.end_x, r.start_y)
  | Handle.bottomRight => (r.start_x, r.start_y)
  | _ => (r.start_x, r.start_y)

/-! ## Crop pipeline -/

/-- A pixel value (the BGR triple of a decoded frame, abstracted). -/
abbrev Pixel := Nat

/-- A decoded frame: a list of rows of pixels. -/
abbrev Frame := List (List Pixel)

/-- The numpy slice frame[y:y+h, x:x+w] at crpr.py 513, for nonnegative
bounds: keep rows y to y+h, and within each row the pixels x to x+w,
clamping at the end of the data as Python slicing does. -/
def sliceFrame (x y w h : Nat) (f : Frame) : Frame :=
  ((f.drop y).take h).map fun row => (row.drop x).take w

/-- A video: its frames in order plus the stream metadata read and written
through cv2 (width, height, frames-per-second). -/
structure Video where
  frames : List Frame
  width : Nat
  height : Nat
  fps : Rat
  deriving DecidableEq, Repr

/-- Python int() applied to a (nonnegative or negative) rational: truncation
toward zero, as in `fps = int(cap.get(cv2.CAP_PROP_FPS))` (crpr.py 501). -/
def pyInt (q : Rat) : Int :=
  if 0 ≤ q then ⌊q⌋ else ⌈q⌉

/-- The frame loop of crop_video (crpr.py 508-514): read one frame, stop when
the read fails (end of stream), else slice it and write it, then continue. -/
def cropFrames (x y w h : Nat) : List Frame → List Frame
  | [] => []
  | f :: fs => sliceFrame x y w h f :: cropFrames x y w h fs

/-- crop_video (crpr.py 495-517), happy path: the output video carries the
ROI width and height (passed to the VideoWriter), the int()-truncated source
fps, and the sliced frames in source order. -/
def crop_video (v : Video) (crop_roi : Nat × Nat × Nat × Nat) : Video :=
  let x := crop_roi.1
  let y := crop_roi.2.1
  let w := crop_roi.2.2.1
  let h := crop_roi.2.2.2
  { frames := cropFrames x y w h v.frames
    width := w
    height := h
    fps := ((pyInt v.fps : Int) : Rat) }

/-- Every frame of the list has the given number of rows, each of the given
number of pixels. -/
def framesSized (rows cols : Nat) (l : List Frame) : Bool :=
  l.all fun f =>
    decide (f.length = rows) && f.all fun row => decide (row.length = cols)

/-- A video is well formed when every frame has the video's height and width. -/
def Video.wellFormed (v : Video) : Bool :=
  framesSized v.height v.width v.frames

/-- Observable outcome of one run of crop_video under a fallible encoder:
the frames written before the run ended, whether cap.release() and
out.release() (crpr.py 516-517) were reached, and whether the run ended by an
uncaught exception. -/
structure CropRun where
  written : List Frame
  capReleased : Bool
  outReleased : Bool
  raised : Bool
  deriving DecidableEq, Repr

/-- The frame loop of crop_video under a fallible encoder: writeOk tells
whether out.write succeeds on a given sliced frame; a failing write raises,
ending the loop exceptionally.  Returns the frames written and whether an
exception was raised. -/
def writeLoop (writeOk : Frame → Bool) (x y w h : Nat) : List Frame → List Frame × Bool
  | [] => ([], false)
  | f :: fs =>
      let cf := sliceFrame x y w h f
      if writeOk cf then
        let rest := writeLoop writeOk x y w h fs
        (cf :: rest.1, rest.2)
      else
        ([], true)

/-- One run of crop_video (crpr.py 495-517) under a fallible encoder.  The
function body has no try/finally: the two release() calls at lines 516-517
execute only when the loop exits normally; an exception raised inside the
loop propagates to the caller first, skipping both. -/
def crop_video_run (writeOk : Frame → Bool) (x y w h : Nat) (frames : List Frame) : CropRun :=
  let l := writeLoop writeOk x y w h frames
  if l.2 then
    { written := l.1, capReleased := false, outReleased := false, raised := true }
  else
    { written := l.1, capReleased := true, outReleased := true, raised := false }

/-! ## Theorems -/

/-- C10: in make_square a zero displacement on an axis is treated as negative:
when dx = 0 the end x is start_x - max(abs dx, abs dy), and when dy = 0 the
end y is start_y - max(abs dx, abs dy), so a purely vertical drag extends the
square to the left and a purely horizontal drag extends it upward. -/
theorem c10_make_square_zero_axis (start_x start_y current_x current_y : Int) :
    (current_x = start_x →
      (make_square start_x start_y current_x current_y).1 =
        start_x - ((max (current_x - start_x).natAbs (current_y - start_y).natAbs : Nat) : Int)) ∧
    (current_y = start_y →
      (make_square start_x start_y current_x current_y).2 =
        start_y - ((max (current_x - start_x).natAbs (current_y - start_y).natAbs : Nat) : Int)) := by
  constructor <;> intro hz <;> subst hz <;> simp only [make_square] <;>
    (repeat' split) <;> omega

/-- Witness for C10 at a purely vertical drag from (5, 5) to (5, 9): the end
x is 5 - max 0 4 = 1. -/
theorem c10_make_square_zero_axis_witness :
    (make_square 5 5 5 9).1 =
      5 - ((max ((5 : Int) - 5).natAbs ((9 : Int) - 5).natAbs : Nat) : Int) :=
  (c10_make_square_zero_axis 5 5 5 9).1 rfl

/-- C7: for every CREATING pointer-move with the square modifier active, the
rectangle produced through make_square has width equal to height, for every
combination of signs of the pointer displacement. -/
theorem c7_square_creating (s : SMState) (r : Rect) (x y : Int) (cv2_shift : Bool)
    (hd : s.drag_mode = DragMode.creating)
    (hr : s.rect = Option.some r)
    (hsq : check_shift_key s cv2_shift = true) :
    ∃ r2, (mouse_callback s (MouseEvent.mousemove x y cv2_shift)).rect = Option.some r2 ∧
      r2.width = r2.height := by
  refine ⟨⟨r.start_x, r.start_y, (make_square r.start_x r.start_y x y).1,
    (make_square r.start_x r.start_y x y).2⟩, ?_, ?_⟩
  · simp [mouse_callback, hd, hr, hsq]
  · simp only [Rect.width, Rect.height, make_square]
    repeat' split
    all_goals omega

/-- Witness for C7: creating from (3, 4) with shift held, pointer at (9, 1). -/
theorem c7_square_creating_witness :
    ∃ r2, (mouse_callback
      { rect := Option.some ⟨3, 4, 3, 4⟩, drag_mode := DragMode.creating,
        move_start_x := 0, move_start_y := 0, frame_width := 100, frame_height := 100,
        resize_handle := Option.none, square_mode := false }
      (MouseEvent.mousemove 9 1 true)).rect = Option.some r2 ∧
      r2.width = r2.height :=
  c7_square_creating _ ⟨3, 4, 3, 4⟩ 9 1 true rfl rfl rfl

/-- C5: for every RESIZING pointer-move on a corner handle with square mode
active, the two coordinate fields forming the corner opposite the active
handle are unchanged, and afterwards the rectangle's width equals its
height. -/
theorem c5_square_corner_resize (r : Rect) (fw fh x y : Int) (h : Handle)
    (hc : h.isCorner = true) :
    (handle_resize r h fw fh x y true).oppositeCorner h = r.oppositeCorner h ∧
    (handle_resize r h fw fh x y true).width = (handle_resize r h fw fh x y true).height := by
  rcases h <;> simp only [Handle.isCorner] at hc <;> try exact absurd hc (by decide)
  all_goals
    constructor
  all_goals
    simp only [handle_resize, Rect.oppositeCorner, Rect.width, Rect.height,
      Handle.hasLeft, Handle.hasRight, Handle.hasTop, Handle.hasBottom, Handle.isCorner,
      Bool.and_self, if_true, if_false, Bool.and_true, Bool.true_and]
  all_goals first | rfl | omega

/-- Witness for C5: square resize at the top-left handle of (0,0)-(30,40). -/
theorem c5_square_corner_resize_witness :
    (handle_resize ⟨0, 0, 30, 40⟩ Handle.topLeft 100 100 5 5 true).oppositeCorner Handle.topLeft =
      Rect.oppositeCorner ⟨0, 0, 30, 40⟩ Handle.topLeft ∧
    (handle_resize ⟨0, 0, 30, 40⟩ Handle.topLeft 100 100 5 5 true).width =
      (handle_resize ⟨0, 0, 30, 40⟩ Handle.topLeft 100 100 5 5 true).height :=
  c5_square_corner_resize ⟨0, 0, 30, 40⟩ 100 100 5 5 Handle.topLeft rfl

/-- C9: confirming succeeds exactly when all four coordinates are set and
both normalized dimensions are at least the 10 px minimum (so exactly 10
passes); otherwise validate_selection rejects and process_video, hence the
crop pipeline, is not invoked. -/
theorem c9_confirm_validation (s : CoordState) :
    confirm_invokes_pipeline s = true ↔
      ∃ sx sy ex ey, s.start_x = Option.some sx ∧ s.start_y = Option.some sy ∧
        s.end_x = Option.some ex ∧ s.end_y = Option.some ey ∧
        10 ≤ max sx ex - min sx ex ∧ 10 ≤ max sy ey - min sy ey := by
  rcases s with ⟨sx, sy, ex, ey⟩
  rcases sx <;> rcases sy <;> rcases ex <;> rcases ey <;>
    simp [confirm_invokes_pipeline, validate_selection, has_valid_selection,
      check_minimum_size, ge_iff_le]

/-- C3 counterexample: a run whose first write raises ends on the exceptional
exit path with neither cap.release() nor out.release() reached, because
crop_video has no try/finally. -/
theorem c3_release_cex :
    (crop_video_run (fun _ => false) 0 0 1 1 [[[0]]]).raised = true ∧
    (crop_video_run (fun _ => false) 0 0 1 1 [[[0]]]).capReleased = false ∧
    (crop_video_run (fun _ => false) 0 0 1 1 [[[0]]]).outReleased = false := by
  decide

/-- C3 amended: the capture and the writer are both released exactly when the
frame loop exits normally - in particular always when no frames were produced
(an immediately-unreadable source) - while an exception raised by a failing
write skips both release calls. -/
theorem c3_release_amended (writeOk : Frame → Bool) (x y w h : Nat) (frames : List Frame) :
    ((crop_video_run writeOk x y w h frames).capReleased
        = !(crop_video_run writeOk x y w h frames).raised) ∧
    ((crop_video_run writeOk x y w h frames).outReleased
        = !(crop_video_run writeOk x y w h frames).raised) ∧
    (frames = [] →
      (crop_video_run writeOk x y w h frames).capReleased = true ∧
      (crop_video_run writeOk x y w h frames).outReleased = true) := by
  rcases hw : writeLoop writeOk x y w h frames with ⟨ws, raised⟩
  rcases raised
  · simp [crop_video_run, hw]
  · simp [crop_video_run, hw]
    intro hf
    subst hf
    simp [writeLoop] at hw

/-- Witness for C3 amended: a run over an empty source with an always-failing
writer still releases both handles. -/
theorem c3_release_amended_witness :
    (crop_video_run (fun _ => false) 0 0 1 1 []).capReleased
        = !(crop_video_run (fun _ => false) 0 0 1 1 []).raised ∧
    (crop_video_run (fun _ => false) 0 0 1 1 []).outReleased
        = !(crop_video_run (fun _ => false) 0 0 1 1 []).raised ∧
    (([] : List Frame) = [] →
      (crop_video_run (fun _ => false) 0 0 1 1 []).capReleased = true ∧
      (crop_video_run (fun _ => false) 0 0 1 1 []).outReleased = true) :=
  c3_release_amended (fun _ => false) 0 0 1 1 []

/-- C4 counterexample: a 29.97 fps source is written at 29 fps, because
crop_video truncates the source rate with int() before handing it to the
writer; the output frame rate differs from the source frame rate. -/
theorem c4_fps_cex :
    (crop_video ⟨[], 100, 100, 2997 / 100⟩ (0, 0, 10, 10)).fps ≠
      (⟨[], 100, 100, 2997 / 100⟩ : Video).fps := by
  have hf : ⌊(2997 / 100 : Rat)⌋ = 29 := by norm_num
  simp only [crop_video, pyInt]
  rw [if_pos (by norm_num), hf]
  norm_num

/-- C4 amended: the output frame rate is the int()-truncation of the source
frame rate; for a nonnegative source rate it equals the source frame rate
exactly when that rate is an integer, so non-integer rates are not
preserved. -/
theorem c4_fps_amended (v : Video) (crop_roi : Nat × Nat × Nat × Nat)
    (hq : 0 ≤ v.fps) :
    (crop_video v crop_roi).fps = ((pyInt v.fps : Int) : Rat) ∧
    ((crop_video v crop_roi).fps = v.fps ↔ v.fps.den = 1) := by
  constructor
  · rfl
  · simp only [crop_video, pyInt, if_pos hq]
    constructor
    · intro hfl
      rw [← hfl]
      exact Rat.den_intCast _
    · intro hden
      obtain hnum := (Rat.den_eq_one_iff v.fps).mp hden
      rw [← hnum, Int.floor_intCast]

/-- Witness for C4 amended at an integer-rate source (30 fps): the rate is
preserved. -/
theorem c4_fps_amended_witness :
    (crop_video ⟨[], 100, 100, 30⟩ (0, 0, 10, 10)).fps = ((pyInt 30 : Int) : Rat) ∧
    ((crop_video ⟨[], 100, 100, 30⟩ (0, 0, 10, 10)).fps = (30 : Rat) ↔ (30 : Rat).den = 1) :=
  c4_fps_amended ⟨[], 100, 100, 30⟩ (0, 0, 10, 10) (by norm_num)

/-- C6: a MOVING pointer-move through move_selection preserves the
rectangle's normalized width and height exactly, and - whenever the rectangle
fits in the frame - the result satisfies 0 ≤ x1 and x2 ≤ frame_width and
0 ≤ y1 and y2 ≤ frame_height: clamping slides the rectangle flush with a
bound instead of resizing it. -/
theorem c6_move_preserves (r : Rect) (move_start_x move_start_y fw fh x y : Int)
    (hw : r.width ≤ fw) (hh : r.height ≤ fh) :
    ((move_selection r move_start_x move_start_y fw fh x y).1).width = r.width ∧
    ((move_selection r move_start_x move_start_y fw fh x y).1).height = r.height ∧
    Rect.in_bounds (move_selection r move_start_x move_start_y fw fh x y).1 fw fh = true := by
  simp only [Rect.width, Rect.height] at hw hh
  refine ⟨?_, ?_, ?_⟩ <;>
    simp only [move_selection, Rect.width, Rect.height, Rect.in_bounds,
      Bool.and_eq_true, decide_eq_true_eq] <;>
    (repeat' split) <;> omega

/-- Witness for C6: moving (10,10)-(60,60) far past the right edge of a
100 x 100 frame. -/
theorem c6_move_preserves_witness :
    ((move_selection ⟨10, 10, 60, 60⟩ 30 30 100 100 500 30).1).width =
      Rect.width ⟨10, 10, 60, 60⟩ ∧
    ((move_selection ⟨10, 10, 60, 60⟩ 30 30 100 100 500 30).1).height =
      Rect.height ⟨10, 10, 60, 60⟩ ∧
    Rect.in_bounds (move_selection ⟨10, 10, 60, 60⟩ 30 30 100 100 500 30).1 100 100 = true :=
  c6_move_preserves ⟨10, 10, 60, 60⟩ 30 30 100 100 500 30 (by decide) (by decide)

/-- The frame loop of crop_video writes exactly the slice of every source
frame, in order. -/
theorem cropFrames_eq_map (x y w h : Nat) (l : List Frame) :
    cropFrames x y w h l = l.map (sliceFrame x y w h) := by
  induction l with
  | nil => rfl
  | cons f fs ih => simp [cropFrames, ih]

/-- A slice of a W x H frame taken with x + w ≤ W and y + h ≤ H has exactly
h rows of exactly w pixels. -/
theorem sliceFrame_sized (x y w h sw sh : Nat) (f : Frame)
    (hf : f.length = sh) (hrow : ∀ row ∈ f, row.length = sw)
    (hx : x + w ≤ sw) (hy : y + h ≤ sh) :
    (sliceFrame x y w h f).length = h ∧
    ∀ row ∈ sliceFrame x y w h f, row.length = w := by
  constructor
  · simp only [sliceFrame, List.length_map, List.length_take, List.length_drop]
    omega
  · intro row hr
    simp only [sliceFrame, List.mem_map] at hr
    obtain ⟨row0, hr0, hrw⟩ := hr
    have hmem : row0 ∈ f := List.drop_subset y f (List.take_subset h _ hr0)
    have hlen : row0.length = sw := hrow row0 hmem
    subst hrw
    simp only [List.length_take, List.length_drop, hlen]
    omega

/-- C1: for a well-formed source video and a ROI (x,y,w,h) with
x + w ≤ source width and y + h ≤ source height, crop_video produces an output
with width w and height h, exactly as many frames as the source, and the
i-th output frame is the pixel-exact slice [y:y+h, x:x+w] of the i-th source
frame; every output frame measures h rows of w pixels. -/
theorem c1_crop_contract (v : Video) (x y w h : Nat)
    (hwf : v.wellFormed = true)
    (hx : x + w ≤ v.width) (hy : y + h ≤ v.height) :
    (crop_video v (x, y, w, h)).width = w ∧
    (crop_video v (x, y, w, h)).height = h ∧
    (crop_video v (x, y, w, h)).frames.length = v.frames.length ∧
    (∀ i : Nat, (crop_video v (x, y, w, h)).frames[i]? =
      (v.frames[i]?).map (sliceFrame x y w h)) ∧
    framesSized h w (crop_video v (x, y, w, h)).frames = true := by
  refine ⟨rfl, rfl, ?_, ?_, ?_⟩
  · simp [crop_video, cropFrames_eq_map]
  · intro i
    simp [crop_video, cropFrames_eq_map]
  · simp only [Video.wellFormed, framesSized, List.all_eq_true, Bool.and_eq_true,
      decide_eq_true_eq] at hwf ⊢
    simp only [crop_video, cropFrames_eq_map, List.mem_map]
    rintro _ ⟨f0, hf0, rfl⟩
    obtain ⟨hlen, hrows⟩ := hwf f0 hf0
    obtain ⟨hslen, hsrows⟩ :=
      sliceFrame_sized x y w h v.width v.height f0 hlen hrows hx hy
    exact ⟨hslen, hsrows⟩

/-- A concrete 3 x 3, two-frame source used to witness C1. -/
def vdemo : Video :=
  ⟨[[[1, 2, 3], [4, 5, 6], [7, 8, 9]],
    [[10, 11, 12], [13, 14, 15], [16, 17, 18]]], 3, 3, 10⟩

/-- Witness for C1: cropping the two-frame 3 x 3 demo video with ROI
(1,1,2,2) yields a 2 x 2 two-frame output whose second frame is the slice of
the second source frame. -/
theorem c1_crop_contract_witness :
    vdemo.wellFormed = true ∧
    (crop_video vdemo (1, 1, 2, 2)).width = 2 ∧
    (crop_video vdemo (1, 1, 2, 2)).height = 2 ∧
    (crop_video vdemo (1, 1, 2, 2)).frames.length = vdemo.frames.length ∧
    (crop_video vdemo (1, 1, 2, 2)).frames[1]? =
      (vdemo.frames[1]?).map (sliceFrame 1 1 2 2) ∧
    framesSized 2 2 (crop_video vdemo (1, 1, 2, 2)).frames = true := by
  have hc := c1_crop_contract vdemo 1 1 2 2 (by decide) (by decide) (by decide)
  exact ⟨by decide, hc.1, hc.2.1, hc.2.2.1, hc.2.2.2.1 1, hc.2.2.2.2⟩

/-- A state about to resize the top-left corner of the in-bounds selection
(40,0)-(50,90) inside a 100 x 100 frame. -/
def resizeDemoState : SMState :=
  { rect := Option.some ⟨40, 0, 50, 90⟩, drag_mode := DragMode.resizing,
    move_start_x := 0, move_start_y := 0, frame_width := 100, frame_height := 100,
    resize_handle := Option.some Handle.topLeft, square_mode := false }

/-- C2 counterexample: from an in-bounds selection, a square-mode RESIZING
pointer-move at the in-bounds pointer (45, 0) drives start_x to -40, outside
the frame: the square branch of handle_resize does not clamp. -/
theorem c2_bounds_cex :
    SMState.rect_in_bounds resizeDemoState = true ∧
    MouseEvent.in_bounds 100 100 (MouseEvent.mousemove 45 0 true) = true ∧
    SMState.rect_in_bounds (mouse_callback resizeDemoState (MouseEvent.mousemove 45 0 true))
      = false ∧
    (mouse_callback resizeDemoState (MouseEvent.mousemove 45 0 true)).rect =
      Option.some ⟨-40, 0, 50, 90⟩ := by
  decide

/-- move_selection keeps the normalized width and height and, when the
rectangle fits in the frame, lands fully inside [0, fw] x [0, fh]. -/
theorem move_selection_spec (r : Rect) (move_start_x move_start_y fw fh x y : Int)
    (hw : r.width ≤ fw) (hh : r.height ≤ fh) :
    ((move_selection r move_start_x move_start_y fw fh x y).1).width = r.width ∧
    ((move_selection r move_start_x move_start_y fw fh x y).1).height = r.height ∧
    Rect.in_bounds (move_selection r move_start_x move_start_y fw fh x y).1 fw fh = true := by
  simp only [Rect.width, Rect.height] at hw hh
  refine ⟨?_, ?_, ?_⟩ <;>
    simp only [move_selection, Rect.width, Rect.height, Rect.in_bounds,
      Bool.and_eq_true, decide_eq_true_eq] <;>
    (repeat' split) <;> omega

/-- Outside its square branch, handle_resize only writes frame-clamped
pointer coordinates into the rectangle, so in-bounds rectangles stay in
bounds. -/
theorem handle_resize_in_bounds (r : Rect) (hd : Handle) (fw fh x y : Int) (ms : Bool)
    (hr : r.in_bounds fw fh = true) (hfw : 0 ≤ fw) (hfh : 0 ≤ fh)
    (hns : (ms && hd.isCorner) = false) :
    (handle_resize r hd fw fh x y ms).in_bounds fw fh = true := by
  simp only [Rect.in_bounds, Bool.and_eq_true, decide_eq_true_eq] at hr ⊢
  rcases ms <;> rcases hd <;>
    simp_all [handle_resize, Handle.hasLeft, Handle.hasRight, Handle.hasTop,
      Handle.hasBottom, Handle.isCorner]

/-- C2 amended: after pointer-down, pointer-up, and every pointer-move except
a CREATING move with the square modifier active and a RESIZING move on a
corner handle with the square modifier active, an in-bounds selection driven
by an in-bounds pointer stays within [0, frame_width] x [0, frame_height];
the two excluded square-mode operations can leave the bounds (see the
counterexample). -/
theorem c2_bounds_amended (s : SMState) (e : MouseEvent)
    (hs : s.rect_in_bounds = true)
    (he : e.in_bounds s.frame_width s.frame_height = true)
    (h1 : isSquareCreatingMove s e = false)
    (h2 : isSquareCornerResizeMove s e = false) :
    (mouse_callback s e).rect_in_bounds = true := by
  rcases e with ⟨x, y⟩ | ⟨x, y, sh⟩ | _
  · -- pointer-down
    simp only [MouseEvent.in_bounds, Bool.and_eq_true, decide_eq_true_eq] at he
    rcases hsr : s.rect with _ | r
    · simp only [mouse_callback, hsr, SMState.rect_in_bounds, Rect.in_bounds,
        Bool.and_eq_true, decide_eq_true_eq]
      omega
    · have hs' : Rect.in_bounds r s.frame_width s.frame_height = true := by
        simpa [SMState.rect_in_bounds, hsr] using hs
      rcases hg : get_handle_at_position r x y with _ | hdl
      · by_cases hp : point_in_selection r x y = true
        · simpa [mouse_callback, hsr, hg, hp, SMState.rect_in_bounds] using hs'
        · simp only [mouse_callback, hsr, hg, if_neg hp, SMState.rect_in_bounds,
            Rect.in_bounds, Bool.and_eq_true, decide_eq_true_eq]
          omega
      · simpa [mouse_callback, hsr, hg, SMState.rect_in_bounds] using hs'
  · -- pointer-move
    simp only [MouseEvent.in_bounds, Bool.and_eq_true, decide_eq_true_eq] at he
    rcases hdm : s.drag_mode
    · simpa [mouse_callback, hdm] using hs
    · -- CREATING, square modifier off by h1
      have hsh : check_shift_key s sh = false := by
        have h1' := h1
        simp [isSquareCreatingMove, hdm] at h1'
        exact h1'
      rcases hsr : s.rect with _ | r
      · simpa [mouse_callback, hdm, hsr, SMState.rect_in_bounds] using hs
      · have hs' : Rect.in_bounds r s.frame_width s.frame_height = true := by
          simpa [SMState.rect_in_bounds, hsr] using hs
        simp only [Rect.in_bounds, Bool.and_eq_true, decide_eq_true_eq] at hs'
        simp only [mouse_callback, hdm, hsr, hsh, Bool.false_eq_true, if_false,
          SMState.rect_in_bounds, Rect.in_bounds, Bool.and_eq_true, decide_eq_true_eq]
        omega
    · -- MOVING
      rcases hsr : s.rect with _ | r
      · simpa [mouse_callback, hdm, hsr, SMState.rect_in_bounds] using hs
      · have hs' : Rect.in_bounds r s.frame_width s.frame_height = true := by
          simpa [SMState.rect_in_bounds, hsr] using hs
        have hw : r.width ≤ s.frame_width := by
          simp only [Rect.in_bounds, Bool.and_eq_true, decide_eq_true_eq] at hs'
          simp only [Rect.width]
          omega
        have hh : r.height ≤ s.frame_height := by
          simp only [Rect.in_bounds, Bool.and_eq_true, decide_eq_true_eq] at hs'
          simp only [Rect.height]
          omega
        have hb := (move_selection_spec r s.move_start_x s.move_start_y
          s.frame_width s.frame_height x y hw hh).2.2
        simpa [mouse_callback, hdm, hsr, SMState.rect_in_bounds] using hb
    · -- RESIZING
      rcases hrh : s.resize_handle with _ | hdl
      · rcases hsr : s.rect with _ | r <;>
          simpa [mouse_callback, hdm, hrh, hsr, SMState.rect_in_bounds] using hs
      · rcases hsr : s.rect with _ | r
        · simpa [mouse_callback, hdm, hrh, hsr, SMState.rect_in_bounds] using hs
        · have hs' : Rect.in_bounds r s.frame_width s.frame_height = true := by
            simpa [SMState.rect_in_bounds, hsr] using hs
          have hns : (check_shift_key s sh && hdl.isCorner) = false := by
            have h2' := h2
            simp [isSquareCornerResizeMove, hdm, hrh] at h2'
            cases hck : check_shift_key s sh <;> cases hic : hdl.isCorner <;>
              simp_all
          have hfw : 0 ≤ s.frame_width := by omega
          have hfh : 0 ≤ s.frame_height := by omega
          have hb := handle_resize_in_bounds r hdl s.frame_width s.frame_height x y
            (check_shift_key s sh) hs' hfw hfh hns
          simpa [mouse_callback, hdm, hrh, hsr, SMState.rect_in_bounds] using hb
  · -- pointer-up
    rcases hsr : s.rect with _ | r <;>
      simpa [mouse_callback, hsr, SMState.rect_in_bounds] using hs

/-- Witness for C2 amended: a MOVING pointer-move of the in-bounds selection
(10,10)-(60,60) with the pointer dragged to the frame corner (90, 90). -/
theorem c2_bounds_amended_witness :
    SMState.rect_in_bounds (mouse_callback
      { rect := Option.some ⟨10, 10, 60, 60⟩, drag_mode := DragMode.moving,
        move_start_x := 30, move_start_y := 30, frame_width := 100, frame_height := 100,
        resize_handle := Option.none, square_mode := false }
      (MouseEvent.mousemove 90 90 false)) = true :=
  c2_bounds_amended _ (MouseEvent.mousemove 90 90 false)
    (by decide) (by decide) (by decide) (by decide)

/-- C8 counterexample: for the small selection (0,0)-(10,10) the pointer
(20, 15) lies exactly HANDLE_SENSITIVITY pixels from the right handle's
center (10, 5) on each axis, yet the hit test returns bottom-right, the
first earlier handle in dict order whose zone also contains the pointer. -/
theorem c8_hit_cex :
    ((20 : Int) - ((⟨0, 0, 10, 10⟩ : Rect).handleCenterOf Handle.right).1).natAbs
      = HANDLE_SENSITIVITY ∧
    ((15 : Int) - ((⟨0, 0, 10, 10⟩ : Rect).handleCenterOf Handle.right).2).natAbs
      = HANDLE_SENSITIVITY ∧
    get_handle_at_position ⟨0, 0, 10, 10⟩ 20 15 = Option.some Handle.bottomRight ∧
    Handle.bottomRight ≠ Handle.right := by
  decide

set_option maxHeartbeats 3000000 in
/-- C8 amended: for selections whose normalized width and height are at least
44 (= 4 * HANDLE_SENSITIVITY + 4, so the eight sensitivity zones are pairwise
disjoint), a pointer exactly HANDLE_SENSITIVITY pixels from a handle center
on each axis returns that handle, and a pointer HANDLE_SENSITIVITY + 1 pixels
away on one axis (and at most that far on the other) returns no handle; for
smaller selections overlapping zones resolve to the first handle in dict
order (see the counterexample). -/
theorem c8_hit_amended (r : Rect) (h : Handle) (px py : Int)
    (hw : 44 ≤ r.width) (hh : 44 ≤ r.height) :
    (((px - (r.handleCenterOf h).1).natAbs = HANDLE_SENSITIVITY ∧
      (py - (r.handleCenterOf h).2).natAbs = HANDLE_SENSITIVITY) →
        get_handle_at_position r px py = Option.some h) ∧
    (((px - (r.handleCenterOf h).1).natAbs = HANDLE_SENSITIVITY + 1 ∧
      (py - (r.handleCenterOf h).2).natAbs ≤ HANDLE_SENSITIVITY + 1) →
        get_handle_at_position r px py = Option.none) ∧
    (((py - (r.handleCenterOf h).2).natAbs = HANDLE_SENSITIVITY + 1 ∧
      (px - (r.handleCenterOf h).1).natAbs ≤ HANDLE_SENSITIVITY + 1) →
        get_handle_at_position r px py = Option.none) := by
  simp only [Rect.width, Rect.height] at hw hh
  rcases h <;>
    refine ⟨?_, ?_, ?_⟩ <;>
    (rintro ⟨ha, hb⟩
     simp only [Rect.handleCenterOf, HANDLE_SENSITIVITY] at ha hb
     simp only [get_handle_at_position, hitTest, Rect.handleCenterOf, HANDLE_SENSITIVITY,
       Bool.and_eq_true, decide_eq_true_eq]
     repeat' split) <;>
    first
      | rfl
      | omega

/-- Witness for C8 amended: on the selection (0,0)-(50,50) the pointer
(10, 10), exactly 10 pixels from the top-left handle center (0, 0) on each
axis, hits the top-left handle. -/
theorem c8_hit_amended_witness :
    44 ≤ Rect.width ⟨0, 0, 50, 50⟩ ∧ 44 ≤ Rect.height ⟨0, 0, 50, 50⟩ ∧
    get_handle_at_position ⟨0, 0, 50, 50⟩ 10 10 = Option.some Handle.topLeft :=
  ⟨by decide, by decide,
    (c8_hit_amended ⟨0, 0, 50, 50⟩ Handle.topLeft 10 10 (by decide) (by decide)).1
      ⟨by decide, by decide⟩⟩

end Crpr
